import Mathlib

/-!
Verification of the receipt-to-freeagent reconciliation core.

This file gives a shallow embedding, in Lean 4, of the normalization and
HTTP-orchestration logic of the repository (the Textract analyze route, the
FreeAgent bill/expense upload routes, and the multipart attachment upload
route), together with theorems settling the specification claims.

Conventions of the embedding:
* JS strings are Lean `String`; optional request fields are `Option String`
  (`none` = the JS field is absent/undefined).
* JS numbers produced by `Number(...)` on cleaned money strings are modelled
  exactly as scaled decimals `Dec` (an integer numerator over a power of ten);
  `NaN` is `Option.none`.  IEEE double rounding and overflow to Infinity are
  not modelled: on the inputs at issue (receipt amounts with a handful of
  digits) the double value is exact at the displayed precision.
* Network effects are modelled by oracles: the k-th primary `fetch` of a
  handler run receives the response `net k token body`, and the k-th token
  endpoint call receives `tokNet k`.  A state record counts fetches and
  refreshes so that "no network call happens" is a provable statement.
-/

/-! ## Exact decimal numbers (model of the JS float values in play) -/

/-- An exact decimal: the value `num / 10 ^ exp`.  This models the result of
JS `Number(...)` on the digit-and-dot strings produced by the money cleaning
steps; `NaN` is represented externally as `Option.none`. -/
structure Dec where
  num : Int
  exp : Nat
deriving DecidableEq, Repr

/-- Numeric value of a `Dec` as a rational, used only in statements. -/
def Dec.val (d : Dec) : ℚ := (d.num : ℚ) / (10 ^ d.exp : ℚ)

/-- Model of JS `Math.abs` on a (non-NaN) number. -/
def Dec.abs (d : Dec) : Dec := ⟨d.num.natAbs, d.exp⟩

/-- Model of JS `n.toFixed(2)`: sign taken from `x < 0` (so `-0.001` renders
as "-0.00" and `-0` as "0.00", as in ECMA-262), magnitude rounded to a whole
number of cents.  Ties round half up; for receipt amounts that are exact at
two decimals no rounding occurs, so the binary-double tie behaviour of real
JS is irrelevant here. -/
def Dec.toFixed2 (d : Dec) : String :=
  let neg := decide (d.num < 0)
  let a : Nat := d.num.natAbs
  let cents : Nat := (a * 200 + 10 ^ d.exp) / (2 * 10 ^ d.exp)
  (if neg then "-" else "") ++ toString (cents / 100) ++ "." ++
    (if cents % 100 < 10 then "0" ++ toString (cents % 100) else toString (cents % 100))

/-! ## JS `Number(...)` on cleaned money strings -/

/-- Numeric value of a list of ASCII digits (most significant first). -/
def digitsVal (cs : List Char) : Nat :=
  cs.foldl (fun a c => a * 10 + (c.toNat - '0'.toNat)) 0

/-- `StrDecimalLiteral` without sign: `digits`, `digits.digits?`, or
`.digits`, with at least one digit in total; anything else (a comma, a stray
minus, a second dot, a bare dot) is `NaN`. -/
def parseUnsigned (cs : List Char) : Option Dec :=
  match cs.dropWhile Char.isDigit with
  | [] =>
      if cs.takeWhile Char.isDigit = [] then none
      else some ⟨digitsVal (cs.takeWhile Char.isDigit), 0⟩
  | '.' :: frac =>
      if frac.all Char.isDigit ∧ (cs.takeWhile Char.isDigit ≠ [] ∨ frac ≠ []) then
        some ⟨digitsVal (cs.takeWhile Char.isDigit) * 10 ^ frac.length + digitsVal frac,
          frac.length⟩
      else none
  | _ => none

/-- Model of JS `Number(s)` restricted to strings over the alphabet
`0-9 . , -` (exactly the strings the money-cleaning steps can produce):
the empty string is `0`, an optional single leading minus is a sign, and the
rest must be an unsigned decimal literal.  Strings outside that alphabet are
out of scope of this model (the cleaning steps never produce them). -/
def jsStrToNumber (s : String) : Option Dec :=
  match s.data with
  | [] => some ⟨0, 0⟩
  | c :: rest =>
      if c = '-' then (parseUnsigned rest).map (fun d => ⟨-d.num, d.exp⟩)
      else parseUnsigned (c :: rest)

/-! ## normMoney (analyze route, src/unnamed/part_004 lines 7-12) -/

/-- The character class kept by `s.replace(/[^\d.,-]/g, "")`. -/
def moneyKeep (c : Char) : Bool := c.isDigit || c = '.' || c = ',' || c = '-'

/-- JS `str.replace(",", ".")` — replaces only the first comma. -/
def replaceFirstComma : List Char → List Char
  | [] => []
  | c :: rest => if c = ',' then '.' :: rest else c :: replaceFirstComma rest

/-- The cleaned string `s.replace(/[^\d.,-]/g, "").replace(",", ".")`. -/
def cleanMoney (s : String) : String :=
  String.mk (replaceFirstComma (s.data.filter moneyKeep))

/-- `normMoney` from the analyze route:
`if (!s) return ""`, clean, `Number(...)`, and `Number.isFinite(n) ?
n.toFixed(2) : ""`. -/
def normMoney (s : Option String) : String :=
  match s with
  | none => ""
  | some str =>
      if str = "" then ""
      else
        match jsStrToNumber (cleanMoney str) with
        | some d => d.toFixed2
        | none => ""

/-! ## Civil-date arithmetic (model of `Date.UTC` / `toISOString` slices) -/

/-- Gregorian leap-year test. -/
def isLeap (y : Int) : Bool := (y % 4 = 0 && y % 100 ≠ 0) || y % 400 = 0

/-- Days in month `m` (1-12) of year `y`. -/
def daysInMonth (y : Int) (m : Nat) : Nat :=
  if m = 2 then (if isLeap y then 29 else 28)
  else if m = 4 || m = 6 || m = 9 || m = 11 then 30 else 31

/-- Spill an over-long day count into following months (at most a few steps
are ever needed since day values from the regexes are below 100; the fuel is
ample). -/
def spillDays : Nat → Int → Nat → Nat → Int × Nat × Nat
  | 0, y, m, d => (y, m, d)
  | fuel + 1, y, m, d =>
      let dim := daysInMonth y m
      if d ≤ dim then (y, m, d)
      else if m = 12 then spillDays fuel (y + 1) 1 (d - dim)
      else spillDays fuel y (m + 1) (d - dim)

/-- Model of `Date.UTC(y, mi, d)` followed by reading back the UTC calendar
date: month index `mi` (0-based, may be negative or beyond 11) rolls into the
year, and day `d` (0 means the last day of the previous month, large values
spill forward) is normalized against month lengths. -/
def dateUTCNorm (y : Int) (mi : Int) (d : Nat) : Int × Nat × Nat :=
  let ym := y + Int.fdiv mi 12
  let m := (Int.emod mi 12).toNat + 1
  if d = 0 then
    if m = 1 then (ym - 1, 12, 31) else (ym, m - 1, daysInMonth ym (m - 1))
  else spillDays 5 ym m d

/-- Two-digit zero padding. -/
def pad2 (n : Nat) : String := if n < 10 then "0" ++ toString n else toString n

/-- Four-digit zero padding (years in play are all four-digit). -/
def pad4 (n : Nat) : String :=
  if n < 10 then "000" ++ toString n
  else if n < 100 then "00" ++ toString n
  else if n < 1000 then "0" ++ toString n
  else toString n

/-- `d.toISOString().slice(0, 10)` for a UTC calendar date, i.e. the `ymd`
helper of the analyze route.  Negative years do not arise here. -/
def ymdStr (y : Int) (m d : Nat) : String :=
  pad4 y.toNat ++ "-" ++ pad2 m ++ "-" ++ pad2 d

/-! ## Model of the JS `new Date(string)` direct parse -/

/-- Lower-case an ASCII string (model of `.toLowerCase()` on month names). -/
def lowerStr (s : String) : String := String.mk (s.data.map Char.toLower)

/-- The `monthMap` table of the analyze route (src/unnamed/part_004). -/
def monthMap : List (String × Nat) :=
  [("jan", 1), ("january", 1), ("feb", 2), ("february", 2), ("mar", 3),
   ("march", 3), ("apr", 4), ("april", 4), ("may", 5), ("jun", 6),
   ("june", 6), ("jul", 7), ("july", 7), ("aug", 8), ("august", 8),
   ("sep", 9), ("sept", 9), ("september", 9), ("oct", 10), ("october", 10),
   ("nov", 11), ("november", 11), ("dec", 12), ("december", 12)]

/-- Strict ISO `YYYY-MM-DD` (range-checked, parsed as a UTC date by JS). -/
def parseIsoStrict (cs : List Char) : Option (Int × Nat × Nat) :=
  match cs with
  | [y1, y2, y3, y4, '-', a1, a2, '-', b1, b2] =>
      if [y1, y2, y3, y4, a1, a2, b1, b2].all Char.isDigit then
        let y : Int := digitsVal [y1, y2, y3, y4]
        let m := digitsVal [a1, a2]
        let d := digitsVal [b1, b2]
        if 1 ≤ m ∧ m ≤ 12 ∧ 1 ≤ d ∧ d ≤ daysInMonth y m then some (y, m, d)
        else none
      else none
  | _ => none

/-- Map a 1-2 digit year the way the V8 legacy parser does. -/
def legacyYear (yr : Nat) : Int :=
  if yr < 50 then 2000 + (yr : Int) else if yr < 100 then 1900 + (yr : Int) else yr

/-- Legacy US `M/D/Y` (month-first) slash date, as accepted by the V8
fallback date parser. -/
def parseUsSlash (cs : List Char) : Option (Int × Nat × Nat) :=
  match cs.splitOn '/' with
  | [mp, dp, yp] =>
      if mp ≠ [] ∧ mp.length ≤ 2 ∧ mp.all Char.isDigit ∧
         dp ≠ [] ∧ dp.length ≤ 2 ∧ dp.all Char.isDigit ∧
         yp ≠ [] ∧ yp.length ≤ 4 ∧ yp.all Char.isDigit then
        let m := digitsVal mp
        let d := digitsVal dp
        let y := legacyYear (digitsVal yp)
        if 1 ≤ m ∧ m ≤ 12 ∧ 1 ≤ d ∧ d ≤ daysInMonth y m then some (y, m, d)
        else none
      else none
  | _ => none

/-- Textual `D MonthName Y` (space separated), as accepted by the V8
fallback date parser. -/
def parseDayMonText (cs : List Char) : Option (Int × Nat × Nat) :=
  match cs.splitOn ' ' with
  | [dp, monp, yp] =>
      if dp ≠ [] ∧ dp.length ≤ 2 ∧ dp.all Char.isDigit ∧
         yp ≠ [] ∧ yp.length ≤ 4 ∧ yp.all Char.isDigit then
        match monthMap.lookup (lowerStr (String.mk monp)) with
        | some m =>
            let d := digitsVal dp
            let y := legacyYear (digitsVal yp)
            if 1 ≤ d ∧ d ≤ daysInMonth y m then some (y, m, d) else none
        | none => none
      else none
  | _ => none

/-- Model of V8/Node `new Date(input)` (a process in the UTC timezone) for
the date-string shapes this code path is exercised on: strict ISO
`YYYY-MM-DD`, legacy US month-first `M/D/Y`, and textual `D MonthName Y`.
Other strings are modelled as Invalid Date (`none`); the claims under
verification only evaluate the direct parse on these three shapes. -/
def jsDateParse (s : String) : Option (Int × Nat × Nat) :=
  match parseIsoStrict s.data with
  | some r => some r
  | none =>
      match parseUsSlash s.data with
      | some r => some r
      | none => parseDayMonText s.data

/-! ## Regex scanning for the three loose date patterns -/

/-- JS regex word character `\w`. -/
def isWordChar (c : Char) : Bool := c.isAlpha || c.isDigit || c = '_'

/-- Separator class `[/.\-]` of the numeric date patterns. -/
def isSepDot (c : Char) : Bool := c = '/' || c = '.' || c = '-'

/-- Separator class `[ \-\/.]` of the textual date pattern. -/
def isSepSp (c : Char) : Bool := c = ' ' || c = '-' || c = '/' || c = '.'

/-- The trailing `\b` of the patterns: the character after the final digit
must be absent or a non-word character. -/
def boundaryAfterOk (rest : List Char) : Bool :=
  match rest with
  | [] => true
  | c :: _ => !isWordChar c

/-- Attempt `\b(\d{1,2})[/.\-](\d{1,2})[/.\-](\d{2,4})\b` at the head of
`cs` (the leading `\b` is checked by the scanner).  Greedy matching of a
digit run followed by a non-digit separator is deterministic, so each `\d`
group must consume a whole maximal digit run of the allowed length.  Returns
the captured day/month/year-digits and the matched substring. -/
def m1Attempt (cs : List Char) : Option ((Nat × Nat × List Char) × String) :=
  let s1 := cs.span Char.isDigit
  if s1.1.length = 0 ∨ s1.1.length > 2 then none else
  match s1.2 with
  | c1 :: r1 =>
      if isSepDot c1 then
        let s2 := r1.span Char.isDigit
        if s2.1.length = 0 ∨ s2.1.length > 2 then none else
        match s2.2 with
        | c2 :: r2 =>
            if isSepDot c2 then
              let s3 := r2.span Char.isDigit
              if 2 ≤ s3.1.length ∧ s3.1.length ≤ 4 ∧ boundaryAfterOk s3.2 then
                some ((digitsVal s1.1, digitsVal s2.1, s3.1),
                  String.mk (cs.take (cs.length - s3.2.length)))
              else none
            else none
        | [] => none
      else none
  | [] => none

/-- Attempt `\b(\d{1,2})[ \-\/.]([A-Za-z]{3,9})[ \-\/.](\d{2,4})\b` at the
head of `cs`. -/
def m2Attempt (cs : List Char) : Option ((Nat × String × List Char) × String) :=
  let s1 := cs.span Char.isDigit
  if s1.1.length = 0 ∨ s1.1.length > 2 then none else
  match s1.2 with
  | c1 :: r1 =>
      if isSepSp c1 then
        let s2 := r1.span Char.isAlpha
        if s2.1.length < 3 ∨ s2.1.length > 9 then none else
        match s2.2 with
        | c2 :: r2 =>
            if isSepSp c2 then
              let s3 := r2.span Char.isDigit
              if 2 ≤ s3.1.length ∧ s3.1.length ≤ 4 ∧ boundaryAfterOk s3.2 then
                some ((digitsVal s1.1, String.mk s2.1, s3.1),
                  String.mk (cs.take (cs.length - s3.2.length)))
              else none
            else none
        | [] => none
      else none
  | [] => none

/-- Attempt `\b(20\d{2})[/.\-](\d{1,2})[/.\-](\d{1,2})\b` at the head of
`cs`. -/
def m3Attempt (cs : List Char) : Option ((Nat × Nat × Nat) × String) :=
  let s1 := cs.span Char.isDigit
  match s1.1 with
  | ['2', '0', y3, y4] =>
      match s1.2 with
      | c1 :: r1 =>
          if isSepDot c1 then
            let s2 := r1.span Char.isDigit
            if s2.1.length = 0 ∨ s2.1.length > 2 then none else
            match s2.2 with
            | c2 :: r2 =>
                if isSepDot c2 then
                  let s3 := r2.span Char.isDigit
                  if 1 ≤ s3.1.length ∧ s3.1.length ≤ 2 ∧ boundaryAfterOk s3.2 then
                    some ((digitsVal ['2', '0', y3, y4], digitsVal s2.1,
                        digitsVal s3.1),
                      String.mk (cs.take (cs.length - s3.2.length)))
                  else none
                else none
            | [] => none
          else none
      | [] => none
  | _ => none

/-- Scan for the leftmost position where `attempt` matches, with the leading
`\b` satisfied (all three patterns start with a digit, so the boundary holds
exactly when the previous character is absent or a non-word character). -/
def scanFirst {α : Type} (attempt : List Char → Option α) :
    Option Char → List Char → Option α
  | _, [] => none
  | prev, c :: rest =>
      let bOk := match prev with | none => true | some p => !isWordChar p
      match (if bOk then attempt (c :: rest) else none) with
      | some a => some a
      | none => scanFirst attempt (some c) rest

/-! ## normalizeDateLoose (src/unnamed/part_004 lines 19-75) -/

/-- Year of a captured 2-4 digit year group:
`m[3].length === 2 ? parseInt("20" + m[3]) : parseInt(m[3])`. -/
def yearFromDigits (yd : List Char) : Int :=
  if yd.length = 2 then 2000 + (digitsVal yd : Int) else (digitsVal yd : Int)

/-- `normalizeDateLoose`: `new Date(input)` first; then the `D/M/Y` numeric
pattern (day-first, range-checked 1-12 / 1-31, built with `Date.UTC`), then
the `D MonthName Y` textual pattern, then the `Y-M-D` numeric pattern (not
range-checked).  A pattern that matches but fails its range check falls
through to the next pattern, exactly as in the source. -/
def normalizeDateLoose (input : Option String) : String :=
  match input with
  | none => ""
  | some s =>
      if s = "" then ""
      else
        match jsDateParse s with
        | some (y, m, d) => ymdStr y m d
        | none =>
            let r1 : Option String :=
              match scanFirst m1Attempt none s.data with
              | some ((d, m, yd), _) =>
                  if 1 ≤ m ∧ m ≤ 12 ∧ 1 ≤ d ∧ d ≤ 31 then
                    let t := dateUTCNorm (yearFromDigits yd) ((m : Int) - 1) d
                    some (ymdStr t.1 t.2.1 t.2.2)
                  else none
              | none => none
            match r1 with
            | some out => out
            | none =>
                let r2 : Option String :=
                  match scanFirst m2Attempt none s.data with
                  | some ((d, mon, yd), _) =>
                      match monthMap.lookup (lowerStr mon) with
                      | some mn =>
                          if 1 ≤ d ∧ d ≤ 31 then
                            let t := dateUTCNorm (yearFromDigits yd) ((mn : Int) - 1) d
                            some (ymdStr t.1 t.2.1 t.2.2)
                          else none
                      | none => none
                  | none => none
                match r2 with
                | some out => out
                | none =>
                    let r3 : Option String :=
                      match scanFirst m3Attempt none s.data with
                      | some ((y, m, d), _) =>
                          let t := dateUTCNorm (y : Int) ((m : Int) - 1) d
                          some (ymdStr t.1 t.2.1 t.2.2)
                      | none => none
                    r3.getD ""

/-! ## extractFirstDateFromText (src/unnamed/part_004 lines 77-93) -/

/-- `extractFirstDateFromText`: the three date patterns in order; for each,
take the first match in the text, normalize it, and return the first
normalization that is non-empty. -/
def extractFirstDateFromText (text : String) : String :=
  if text = "" then ""
  else
    let t1 : Option String :=
      match scanFirst m1Attempt none text.data with
      | some (_, matched) =>
          let n := normalizeDateLoose (some matched)
          if n ≠ "" then some n else none
      | none => none
    match t1 with
    | some n => n
    | none =>
        let t2 : Option String :=
          match scanFirst m2Attempt none text.data with
          | some (_, matched) =>
              let n := normalizeDateLoose (some matched)
              if n ≠ "" then some n else none
          | none => none
        match t2 with
        | some n => n
        | none =>
            let t3 : Option String :=
              match scanFirst m3Attempt none text.data with
              | some (_, matched) =>
                  let n := normalizeDateLoose (some matched)
                  if n ≠ "" then some n else none
              | none => none
            t3.getD ""


/-! ## JSON values (bodies of requests and parsed responses) -/

/-- A JSON value.  Numbers are the exact decimals of this development
(`Json.null` also stands for a serialized `NaN`, as in `JSON.stringify`). -/
inductive Json where
  | null
  | jbool (b : Bool)
  | jnum (d : Dec)
  | jstr (s : String)
  | jarr (elems : List Json)
  | jobj (fields : List (String × Json))

/-- JS property access `obj.key` (absent on non-objects). -/
def Json.get? (j : Json) (k : String) : Option Json :=
  match j with
  | .jobj fs => fs.lookup k
  | _ => none

/-- Property access expecting a string value; a non-string value behaves as
absent (the handlers only ever use string-valued `url` fields). -/
def Json.getStr? (j : Json) (k : String) : Option String :=
  match j.get? k with
  | some (.jstr s) => some s
  | _ => none

/-- JS falsiness of an optional string: absent/undefined or empty. -/
def jsFalsy (o : Option String) : Bool :=
  match o with
  | none => true
  | some s => s = ""

/-- JS `o || dflt` on an optional string. -/
def jsOrD (o : Option String) (dflt : String) : String :=
  match o with
  | none => dflt
  | some s => if s = "" then dflt else s

/-! ## HTTP model -/

/-- An HTTP response as the handlers observe it: status, body text, and the
JSON value of the body.  `json` models `JSON.parse(text)`; response bodies
are assumed to be well-formed JSON (the handlers' own `JSON.parse` throw
paths are not exercised by any claim). -/
structure Resp where
  status : Nat
  text : String
  json : Json

/-- `Response.ok` of the fetch API. -/
def Resp.okB (r : Resp) : Bool := decide (200 ≤ r.status) && decide (r.status < 300)

/-- `JSON.parse(text || "{}")` as the routes apply it to a body. -/
def Resp.jparse (r : Resp) : Json := if r.text = "" then Json.jobj [] else r.json

/-- What the token endpoint answered a refresh call: HTTP status and the
`access_token` / `refresh_token` fields of the JSON body (absent = the field
is missing from the body). -/
structure TokenResp where
  status : Nat
  access_token : Option String
  refresh_token : Option String

/-- `Response.ok` for the token endpoint call. -/
def TokenResp.okB (t : TokenResp) : Bool :=
  decide (200 ≤ t.status) && decide (t.status < 300)

/-- Run state of one handler invocation: `k` counts primary fetches issued
(the index into the `net` oracle), `refreshes` counts token-endpoint calls
(the index into the `tokNet` oracle), and `access` / `refreshTok` model the
process-wide `FREEAGENT_ACCESS_TOKEN` / `FREEAGENT_REFRESH_TOKEN`. -/
structure St where
  k : Nat
  refreshes : Nat
  access : String
  refreshTok : String
deriving DecidableEq, Repr

/-! ## Credential Manager (the two refreshAccessToken variants) -/

/-- `refreshAccessToken` of the bill/expense upload routes
(src/app/api/fa-bill-upload/route.ts lines 12-39): on a non-ok status it
throws the fixed message "Failed to refresh FreeAgent access token"
(without the status); on an ok status it stores the access/refresh tokens
only when they are present and truthy, and returns the (possibly absent)
`access_token` field as-is. -/
def refreshAccessTokenBill (tr : TokenResp) (s : St) :
    Except String (Option String) × St :=
  let s1 := { s with refreshes := s.refreshes + 1 }
  if tr.okB = false then
    (Except.error "Failed to refresh FreeAgent access token", s1)
  else
    let s2 := match tr.access_token with
      | some a => if a ≠ "" then { s1 with access := a } else s1
      | none => s1
    let s3 := match tr.refresh_token with
      | some rt => if rt ≠ "" then { s2 with refreshTok := rt } else s2
      | none => s2
    (Except.ok tr.access_token, s3)

/-- `refreshAccessToken` of src/unnamed/part_003 and src/unnamed/part_001:
throws "Failed to refresh FreeAgent token: STATUS" when the response is not
ok or the body lacks a truthy `access_token`; otherwise stores and returns
the new access token (the refresh token is not rotated by this variant). -/
def refreshAccessTokenFA (tr : TokenResp) (s : St) : Except String String × St :=
  let s1 := { s with refreshes := s.refreshes + 1 }
  match tr.access_token with
  | some a =>
      if tr.okB && a ≠ "" then (Except.ok a, { s1 with access := a })
      else
        (Except.error ("Failed to refresh FreeAgent token: " ++ toString tr.status), s1)
  | none =>
      (Except.error ("Failed to refresh FreeAgent token: " ++ toString tr.status), s1)

/-! ## Authenticated Request Executor (withToken of the bill/expense routes) -/

/-- `withToken` (src/app/api/fa-bill-upload/route.ts lines 41-56): send the
request built from the current access token; on a 401, refresh once and
resend the identical request with `newAccess || ""`; return the (second)
response, its text, and the token used.  A thrown refresh error propagates
(`Except.error`).  The oracle `net` answers the k-th primary fetch given the
bearer token and the request body sent. -/
def withTokenBill (net : Nat → String → Json → Resp) (tokNet : Nat → TokenResp)
    (reqBody : Json) (s : St) : Except String (Resp × String × String) × St :=
  let r := net s.k s.access reqBody
  let s1 := { s with k := s.k + 1 }
  if r.status = 401 then
    match refreshAccessTokenBill (tokNet s1.refreshes) s1 with
    | (Except.error e, s2) => (Except.error e, s2)
    | (Except.ok na, s2) =>
        let t := na.getD ""
        let r2 := net s2.k t reqBody
        (Except.ok (r2, r2.text, t), { s2 with k := s2.k + 1 })
  else (Except.ok (r, r.text, s.access), s1)

/-! ## Record Builder (bill payload, src/app/api/fa-bill-upload/route.ts
lines 151-194) -/

/-- The `/^\d{4}-\d{2}-\d{2}$/` test on a candidate date. -/
def isYmdShape (s : String) : Bool :=
  match s.data with
  | [a, b, c, d, '-', e, f, '-', g, h] => [a, b, c, d, e, f, g, h].all Char.isDigit
  | _ => false

/-- `date && /^\d{4}-\d{2}-\d{2}$/.test(date) ? date : today`. -/
def datedOnOf (date : Option String) (today : String) : String :=
  match date with
  | some ds => if ds ≠ "" && isYmdShape ds then ds else today
  | none => today

/-- The character class kept by `String(x).replace(/[^\d.-]/g, "")` (note:
unlike `normMoney`, commas are dropped here). -/
def moneyKeepNoComma (c : Char) : Bool := c.isDigit || c = '.' || c = '-'

/-- `Number(String(x).replace(/[^\d.-]/g, ""))`; `none` is `NaN`. -/
def grossParse (x : String) : Option Dec :=
  jsStrToNumber (String.mk (x.data.filter moneyKeepNoComma))

/-- One bill line item; `total_value = none` models `NaN` (serialized as
`null`), `sales_tax_value = none` models the field being absent. -/
structure BillItem where
  category : String
  total_value : Option Dec
  sales_tax_value : Option Dec

/-- The inline attachment object of the bill payload. -/
structure InlineAttachment where
  data : String
  file_name : String
  description : String
  content_type : String

/-- The `bill` object of the creation payload. -/
structure BillPayload where
  contact : String
  dated_on : String
  due_on : String
  reference : String
  item : BillItem
  attachment : InlineAttachment

/-- Build the bill payload from the (validated) request fields: dates from
`datedOnOf` with `due_on = dated_on`; gross forced non-negative by
`Math.abs`; `sales_tax_value` only when `vat` is truthy and parses; the
receipt inline as `attachment`. -/
def mkBillBody (merchant date vat fileName fileType : Option String)
    (total fileB64 : String) (contactUrl today : String) : BillPayload :=
  let dated_on := datedOnOf date today
  let gross := (grossParse total).map Dec.abs
  let vatNum : Option Dec :=
    match vat with
    | none => none
    | some v => if v = "" then none else (grossParse v).map Dec.abs
  { contact := contactUrl
    dated_on := dated_on
    due_on := dated_on
    reference := jsOrD merchant "Receipt"
    item := { category := "/categories/280", total_value := gross,
              sales_tax_value := vatNum }
    attachment := { data := fileB64
                    file_name := jsOrD fileName "receipt.jpg"
                    description := jsOrD merchant "Receipt"
                    content_type := jsOrD fileType "image/jpeg" } }

/-- Serialize an optional number the way `JSON.stringify` does (`NaN` →
`null`). -/
def decJson : Option Dec → Json
  | some d => Json.jnum d
  | none => Json.null

/-- `JSON.stringify(billBody)` as a JSON value (field order as inserted). -/
def billBodyJson (p : BillPayload) : Json :=
  Json.jobj [("bill", Json.jobj
    [("contact", Json.jstr p.contact),
     ("dated_on", Json.jstr p.dated_on),
     ("due_on", Json.jstr p.due_on),
     ("reference", Json.jstr p.reference),
     ("bill_items", Json.jarr [Json.jobj
       ([("category", Json.jstr p.item.category),
         ("total_value", decJson p.item.total_value)] ++
        (match p.item.sales_tax_value with
         | some v => [("sales_tax_value", Json.jnum v)]
         | none => []))]),
     ("attachment", Json.jobj
       [("data", Json.jstr p.attachment.data),
        ("file_name", Json.jstr p.attachment.file_name),
        ("description", Json.jstr p.attachment.description),
        ("content_type", Json.jstr p.attachment.content_type)])])]

/-- The contact-creation body of the bill route. -/
def contactBodyJson (merchant : Option String) : Json :=
  Json.jobj [("contact", Json.jobj
    [("company_name", Json.jstr (jsOrD merchant "Supplier")),
     ("first_name", Json.jstr ""),
     ("last_name", Json.jstr "")])]

/-! ## The bill upload handler (src/app/api/fa-bill-upload/route.ts POST) -/

/-- A handler result: HTTP status and JSON body, as produced by
`NextResponse.json`. -/
abbrev ApiOut := Nat × Json

/-- `{ error: e }`. -/
def errBody (e : String) : Json := Json.jobj [("error", Json.jstr e)]

/-- `{ error: e, details: d }`. -/
def errBodyD (e d : String) : Json :=
  Json.jobj [("error", Json.jstr e), ("details", Json.jstr d)]

/-- The incoming create-record request body (both routes destructure the
same seven fields). -/
structure BillReq where
  merchant : Option String
  date : Option String
  total : Option String
  vat : Option String
  file_b64 : Option String
  file_name : Option String
  file_type : Option String

/-- Steps 2-3 of the bill route once a contact URL is resolved: build the
payload (with inline attachment) and POST it to `/bills`. -/
def billFinish (b : BillReq) (net : Nat → String → Json → Resp)
    (tokNet : Nat → TokenResp) (today contactUrl : String) (s : St) :
    ApiOut × St :=
  let payload := mkBillBody b.merchant b.date b.vat b.file_name b.file_type
    (b.total.getD "") (b.file_b64.getD "") contactUrl today
  match withTokenBill net tokNet (billBodyJson payload) s with
  | (Except.error e, s) => ((500, errBody e), s)
  | (Except.ok (bRes, bText, _), s) =>
      if bRes.okB = false then ((500, errBodyD "Create bill failed" bText), s)
      else
        ((200, Json.jobj ([("success", Json.jbool true)] ++
           (match bRes.jparse.get? "bill" with
            | some j => [("bill", j)]
            | none => []))), s)

/-- The create-contact branch of the bill route (taken when the search
yielded no usable contact URL). -/
def billViaCreate (b : BillReq) (net : Nat → String → Json → Resp)
    (tokNet : Nat → TokenResp) (today : String) (s : St) : ApiOut × St :=
  match withTokenBill net tokNet (contactBodyJson b.merchant) s with
  | (Except.error e, s) => ((500, errBody e), s)
  | (Except.ok (nRes, nText, _), s) =>
      if nRes.okB = false then
        ((500, errBodyD "Create contact failed" nText), s)
      else
        match nRes.jparse.get? "contact" with
        | some cj =>
            match cj.getStr? "url" with
            | some u =>
                if u = "" then ((500, errBody "No contact URL in response"), s)
                else billFinish b net tokNet today u s
            | none => ((500, errBody "No contact URL in response"), s)
        | none => ((500, errBody "No contact URL in response"), s)

/-- The POST handler of the bill route: validate, look up (or create) the
contact, then create the bill with the receipt inline.  `today` is the
current processing date; a thrown refresh error is caught and answered as a
500 with the error message, as in the route's catch block. -/
def billPOST (b : BillReq) (net : Nat → String → Json → Resp)
    (tokNet : Nat → TokenResp) (today : String) (s : St) : ApiOut × St :=
  if jsFalsy b.total then ((400, errBody "Missing total"), s)
  else if jsFalsy b.file_b64 then ((400, errBody "Missing file data"), s)
  else
    match withTokenBill net tokNet Json.null s with
    | (Except.error e, s) => ((500, errBody e), s)
    | (Except.ok (cRes, cText, _), s) =>
        if cRes.okB = false then
          ((500, errBodyD "Contact lookup failed" cText), s)
        else
          let contactUrl : Option String :=
            match cRes.jparse.get? "contacts" with
            | some (Json.jarr (c0 :: _)) => c0.getStr? "url"
            | _ => none
          match contactUrl with
          | some u =>
              if u = "" then billViaCreate b net tokNet today s
              else billFinish b net tokNet today u s
          | none => billViaCreate b net tokNet today s

/-! ## The expense upload handler (src/app/api/fa-expense-upload/route.ts) -/

/-- The `expense` object of the creation payload. -/
structure ExpensePayload where
  user : String
  dated_on : String
  description : String
  category : String
  gross_value : Option Dec
  sales_tax_value : Option Dec

/-- Build the expense payload: the current user instead of a contact,
`dated_on` only (no due date), `description` instead of `reference`. -/
def mkExpenseBody (merchant date vat : Option String) (total : String)
    (userUrl today : String) : ExpensePayload :=
  { user := userUrl
    dated_on := datedOnOf date today
    description := jsOrD merchant "Receipt"
    category := "/categories/280"
    gross_value := (grossParse total).map Dec.abs
    sales_tax_value :=
      match vat with
      | none => none
      | some v => if v = "" then none else (grossParse v).map Dec.abs }

/-- `JSON.stringify(expenseBody)` as a JSON value. -/
def expenseBodyJson (p : ExpensePayload) : Json :=
  Json.jobj [("expense", Json.jobj
    ([("user", Json.jstr p.user),
      ("dated_on", Json.jstr p.dated_on),
      ("description", Json.jstr p.description),
      ("category", Json.jstr p.category),
      ("gross_value", decJson p.gross_value)] ++
     (match p.sales_tax_value with
      | some v => [("sales_tax_value", Json.jnum v)]
      | none => [])))]

/-- The attachment-creation body used by the expense route (and by the
standalone-attachment bill variant): base64 `file` plus an `attached_to`
back reference. -/
def attachBodyJson (fileName fileType : Option String)
    (fileB64 attachedTo : String) : Json :=
  Json.jobj [("attachment", Json.jobj
    [("file_name", Json.jstr (jsOrD fileName "receipt.jpg")),
     ("content_type", Json.jstr (jsOrD fileType "image/jpeg")),
     ("file", Json.jstr fileB64),
     ("attached_to", Json.jstr attachedTo)])]

/-- Step 4 of the expense route: create the attachment entity and answer. -/
def expenseAttach (b : BillReq) (net : Nat → String → Json → Resp)
    (tokNet : Nat → TokenResp) (eJson : Json) (expenseUrl : String) (s : St) :
    ApiOut × St :=
  match withTokenBill net tokNet
      (attachBodyJson b.file_name b.file_type (b.file_b64.getD "") expenseUrl) s with
  | (Except.error e, s) => ((500, errBody e), s)
  | (Except.ok (aRes, aText, _), s) =>
      if aRes.okB = false then ((500, errBodyD "Attach file failed" aText), s)
      else
        ((200, Json.jobj ([("success", Json.jbool true)] ++
           (match eJson.get? "expense" with
            | some j => [("expense", j)]
            | none => []) ++
           [("attachment",
             match aRes.jparse.get? "attachment" with
             | some Json.null => aRes.jparse
             | some j => j
             | none => aRes.jparse)])), s)

/-- Step 3 of the expense route: create the expense, check its URL. -/
def expenseCreate (b : BillReq) (net : Nat → String → Json → Resp)
    (tokNet : Nat → TokenResp) (today userUrl : String) (s : St) :
    ApiOut × St :=
  let payload := mkExpenseBody b.merchant b.date b.vat (b.total.getD "") userUrl today
  match withTokenBill net tokNet (expenseBodyJson payload) s with
  | (Except.error e, s) => ((500, errBody e), s)
  | (Except.ok (eRes, eText, _), s) =>
      if eRes.okB = false then ((500, errBodyD "Create expense failed" eText), s)
      else
        let eJson := eRes.jparse
        match (eJson.get? "expense").bind (fun ej => ej.getStr? "url") with
        | some u =>
            if u = "" then
              ((500, errBody "Expense created but no URL returned"), s)
            else expenseAttach b net tokNet eJson u s
        | none => ((500, errBody "Expense created but no URL returned"), s)

/-- The POST handler of the expense route: validate, fetch the current user,
create the expense, then attach the receipt as a standalone entity. -/
def expensePOST (b : BillReq) (net : Nat → String → Json → Resp)
    (tokNet : Nat → TokenResp) (today : String) (s : St) : ApiOut × St :=
  if jsFalsy b.total then ((400, errBody "Missing total"), s)
  else if jsFalsy b.file_b64 then ((400, errBody "Missing file data"), s)
  else
    match withTokenBill net tokNet Json.null s with
    | (Except.error e, s) => ((500, errBody e), s)
    | (Except.ok (uRes, uText, _), s) =>
        if uRes.okB = false then
          ((500, errBodyD "User lookup failed" uText), s)
        else
          match (uRes.jparse.get? "user").bind (fun uj => uj.getStr? "url") with
          | some u =>
              if u = "" then ((500, errBody "No user URL in response"), s)
              else expenseCreate b net tokNet today u s
          | none => ((500, errBody "No user URL in response"), s)

/-! ## The multipart attachment upload route (src/unnamed/part_001) -/

/-- The last-failure diagnostic string built inside the upload loop. -/
def uploadDetail (url : String) (r : Resp) : String :=
  "Tried " ++ url ++ " → " ++ toString r.status ++ ": " ++ r.text

/-- The four upload attempts, in loop order: each URL is tried with the
plain `file` field and then the nested `attachment[file]` field. -/
def uploadCombos (base : String) : List (String × String) :=
  [(base ++ "/attachments", "file"),
   (base ++ "/attachments", "attachment[file]"),
   (base ++ "/attachments.json", "file"),
   (base ++ "/attachments.json", "attachment[file]")]

/-- One upload attempt with its inline 401-refresh retry (each attempt gets
one refresh-and-retry, via the throwing part_003-style refresh). -/
def uploadAttempt (net : Nat → String → Resp) (tokNet : Nat → TokenResp)
    (s : St) : Except String Resp × St :=
  let r := net s.k s.access
  let s1 := { s with k := s.k + 1 }
  if r.status = 401 then
    match refreshAccessTokenFA (tokNet s1.refreshes) s1 with
    | (Except.error e, s2) => (Except.error e, s2)
    | (Except.ok _, s2) =>
        let r2 := net s2.k s2.access
        (Except.ok r2, { s2 with k := s2.k + 1 })
  else (Except.ok r, s1)

/-- The strategy loop of part_001: try the combinations in order, return the
first ok response as success, remember the last failure text, and after the
final combination answer 500 with the last failure truncated to 2000
characters. -/
def uploadTry (net : Nat → String → Resp) (tokNet : Nat → TokenResp) :
    List (String × String) → String → St → ApiOut × St
  | [], lastText, s =>
      ((500, errBodyD "Upload failed" (String.mk (lastText.data.take 2000))), s)
  | (url, _) :: rest, _, s =>
      match uploadAttempt net tokNet s with
      | (Except.error e, s) => ((500, errBody e), s)
      | (Except.ok r, s) =>
          if r.okB then
            ((200, Json.jobj [("success", Json.jbool true),
               ("attachment",
                 match r.jparse.get? "attachment" with
                 | some Json.null => r.jparse
                 | some j => j
                 | none => r.jparse)]), s)
          else uploadTry net tokNet rest (uploadDetail url r) s

/-- The POST handler of the multipart upload route: validate the file and
token, then run the strategy loop over the four combinations. -/
def uploadPOST (fileB64 : Option String) (base : String)
    (net : Nat → String → Resp) (tokNet : Nat → TokenResp) (s : St) :
    ApiOut × St :=
  if jsFalsy fileB64 then ((400, errBody "Missing file_b64"), s)
  else if s.access = "" then
    ((500, errBody "Missing FREEAGENT_ACCESS_TOKEN"), s)
  else uploadTry net tokNet (uploadCombos base) "" s

/-! ## Helper lemmas about the money parser -/

lemma mem_dropWhile_of_mem {p : Char → Bool} {c : Char} {l : List Char}
    (hm : c ∈ l) (hp : p c = false) : c ∈ l.dropWhile p := by
  have hsplit := List.takeWhile_append_dropWhile (p := p) (l := l)
  rw [← hsplit] at hm
  rcases List.mem_append.mp hm with h1 | h2
  · exact absurd (List.mem_takeWhile_imp h1) (by simp [hp])
  · exact h2

lemma all_isDigit_false_of_mem {c : Char} {l : List Char}
    (hm : c ∈ l) (hc : c.isDigit = false) : l.all Char.isDigit = false := by
  cases hb : l.all Char.isDigit with
  | false => rfl
  | true => exact absurd (List.all_eq_true.mp hb c hm) (by simp [hc])

lemma parseUnsigned_none_of_comma {cs : List Char} (h : ',' ∈ cs) :
    parseUnsigned cs = none := by
  have hmem : ',' ∈ cs.dropWhile Char.isDigit := mem_dropWhile_of_mem h (by decide)
  unfold parseUnsigned
  split
  · next heq => rw [heq] at hmem; simp at hmem
  · next frac heq =>
      rw [heq] at hmem
      have hr : ',' ∈ frac := by
        rcases List.mem_cons.mp hmem with hc | hc
        · exact absurd hc (by decide)
        · exact hc
      simp [all_isDigit_false_of_mem hr (by decide)]
  · rfl

lemma count_dropWhile_isDigit_dot (cs : List Char) :
    (cs.dropWhile Char.isDigit).count '.' = cs.count '.' := by
  conv_rhs => rw [← List.takeWhile_append_dropWhile (p := Char.isDigit) (l := cs)]
  rw [List.count_append]
  have h0 : (cs.takeWhile Char.isDigit).count '.' = 0 := by
    rw [List.count_eq_zero]
    intro hmem
    exact absurd (List.mem_takeWhile_imp hmem) (by decide)
  omega

lemma parseUnsigned_none_of_two_dots {cs : List Char} (h : 2 ≤ cs.count '.') :
    parseUnsigned cs = none := by
  have hcnt : 2 ≤ (cs.dropWhile Char.isDigit).count '.' := by
    rw [count_dropWhile_isDigit_dot]; exact h
  unfold parseUnsigned
  split
  · next heq => rw [heq] at hcnt; simp at hcnt
  · next frac heq =>
      rw [heq] at hcnt
      have hr : '.' ∈ frac := by
        rw [List.count_cons_self] at hcnt
        exact List.count_pos_iff.mp (by omega)
      simp [all_isDigit_false_of_mem hr (by decide)]
  · rfl

lemma jsStrToNumber_none_of_comma {s : String} (h : ',' ∈ s.data) :
    jsStrToNumber s = none := by
  unfold jsStrToNumber
  cases hd : s.data with
  | nil => rw [hd] at h; simp at h
  | cons c rest =>
      rw [hd] at h
      by_cases hc : c = '-'
      · subst hc
        have hr : ',' ∈ rest := by
          rcases List.mem_cons.mp h with h1 | h1
          · exact absurd h1 (by decide)
          · exact h1
        simp [parseUnsigned_none_of_comma hr]
      · simp [hc, parseUnsigned_none_of_comma h]

lemma jsStrToNumber_none_of_two_dots {s : String} (h : 2 ≤ s.data.count '.') :
    jsStrToNumber s = none := by
  unfold jsStrToNumber
  cases hd : s.data with
  | nil => rw [hd] at h; simp at h
  | cons c rest =>
      rw [hd] at h
      by_cases hc : c = '-'
      · subst hc
        have hr : 2 ≤ rest.count '.' := by
          rw [List.count_cons_of_ne (by decide)] at h
          exact h
        simp [parseUnsigned_none_of_two_dots hr]
      · simp [hc, parseUnsigned_none_of_two_dots h]

lemma count_dot_replaceFirstComma {l : List Char} (h : ',' ∈ l) :
    (replaceFirstComma l).count '.' = l.count '.' + 1 := by
  induction l with
  | nil => simp at h
  | cons c rest ih =>
      by_cases hc : c = ','
      · subst hc
        have hstep : replaceFirstComma (',' :: rest) = '.' :: rest := by
          simp [replaceFirstComma]
        rw [hstep, List.count_cons_self, List.count_cons_of_ne (by decide)]
      · have hr : ',' ∈ rest := by
          rcases List.mem_cons.mp h with h1 | h1
          · exact absurd h1.symm hc
          · exact h1
        have hstep : replaceFirstComma (c :: rest) = c :: replaceFirstComma rest := by
          simp [replaceFirstComma, hc]
        rw [hstep, List.count_cons, List.count_cons, ih hr]
        ring

lemma comma_mem_replaceFirstComma {l : List Char} (h : 2 ≤ l.count ',') :
    ',' ∈ replaceFirstComma l := by
  induction l with
  | nil => simp at h
  | cons c rest ih =>
      by_cases hc : c = ','
      · subst hc
        have hr : 1 ≤ rest.count ',' := by
          rw [List.count_cons_self] at h
          omega
        simp only [replaceFirstComma, if_pos rfl]
        exact List.mem_cons_of_mem _ (List.count_pos_iff.mp hr)
      · have hr : 2 ≤ rest.count ',' := by
          rw [List.count_cons_of_ne (fun he => hc he.symm)] at h
          exact h
        simp only [replaceFirstComma, if_neg hc]
        exact List.mem_cons_of_mem _ (ih hr)

/-! ## Claim C1 -/

/-- C1 counterexample: on the spec's own example "-£12,00" the code returns
"-12.00" — a negative two-decimal value — contradicting both "takes the
absolute value" and "it never returns a negative amount"; moreover the
non-numeric input "abc" cleans to the empty string, which JS parses as 0, so
the result is "0.00" rather than the empty sentinel. -/
theorem normMoney_negative_output :
    normMoney (some "-£12,00") = "-12.00" ∧
    jsStrToNumber "-12.00" = some ⟨-1200, 2⟩ ∧ (⟨-1200, 2⟩ : Dec).num < 0 ∧
    normMoney (some "abc") = "0.00" :=
  ⟨by decide, by decide, by decide, by decide⟩

/-- C1 (amended): for a non-empty amount string, `normMoney` keeps digits,
'.', ',' and '-', replaces the first comma with a dot, parses the result as
a JS number, and renders the parsed value with two decimal places PRESERVING
its sign — no absolute value is taken, so a negative parse yields an output
beginning with '-'; when the cleaned string does not parse as a number the
result is the empty sentinel "" (and nothing is thrown).  All-non-numeric
input cleans to the empty string, which parses as 0 and yields "0.00". -/
theorem normMoney_sign_preserving (s : String) (hs : s ≠ "") :
    (∀ d, jsStrToNumber (cleanMoney s) = some d →
       normMoney (some s) = d.toFixed2 ∧
       (d.num < 0 → (normMoney (some s)).data.head? = some '-')) ∧
    (jsStrToNumber (cleanMoney s) = none → normMoney (some s) = "") := by
  constructor
  · intro d hd
    have hn : normMoney (some s) = d.toFixed2 := by
      unfold normMoney
      simp [hs, hd]
    refine ⟨hn, fun hneg => ?_⟩
    rw [hn]
    unfold Dec.toFixed2
    have hd2 : decide (d.num < 0) = true := decide_eq_true hneg
    simp only [hd2, if_true]
    have hm : ("-" : String).data = ['-'] := rfl
    simp [String.data_append, hm]
  · intro hnone
    unfold normMoney
    simp [hs, hnone]

/-- Witness for the amended C1 at the concrete inputs "-£12,00" (negative
parse, sign preserved) and "1-2" (unparseable, sentinel). -/
theorem normMoney_sign_preserving_witness :
    normMoney (some "-£12,00") = (⟨-1200, 2⟩ : Dec).toFixed2 ∧
    (normMoney (some "-£12,00")).data.head? = some '-' ∧
    normMoney (some "1-2") = "" := by
  have h := normMoney_sign_preserving "-£12,00" (by decide)
  have h2 := normMoney_sign_preserving "1-2" (by decide)
  exact ⟨(h.1 ⟨-1200, 2⟩ (by decide)).1, (h.1 ⟨-1200, 2⟩ (by decide)).2 (by decide),
    h2.2 (by decide)⟩

/-! ## Claim C9 -/

/-- C9 (confirmed): `normMoney` replaces only the first comma of the cleaned
string with a dot, so any input whose cleaned form contains both a comma and
a dot, or two or more commas (e.g. "£1,234.56"), fails the numeric parse and
yields the empty sentinel ""; a single-comma decimal such as "12,00" does
normalize to "12.00". -/
theorem normMoney_first_comma_only (s : String)
    (h : (',' ∈ s.data.filter moneyKeep ∧ '.' ∈ s.data.filter moneyKeep) ∨
         2 ≤ (s.data.filter moneyKeep).count ',') :
    normMoney (some s) = "" ∧ normMoney (some "12,00") = "12.00" := by
  have hs : s ≠ "" := by
    intro he
    subst he
    rcases h with ⟨h1, _⟩ | h1
    · exact absurd h1 (by decide)
    · exact absurd h1 (by decide)
  have hdata : (cleanMoney s).data = replaceFirstComma (s.data.filter moneyKeep) := rfl
  have hnone : jsStrToNumber (cleanMoney s) = none := by
    rcases h with ⟨h1, h2⟩ | h1
    · apply jsStrToNumber_none_of_two_dots
      rw [hdata, count_dot_replaceFirstComma h1]
      have hp : 0 < (s.data.filter moneyKeep).count '.' := List.count_pos_iff.mpr h2
      omega
    · apply jsStrToNumber_none_of_comma
      rw [hdata]
      exact comma_mem_replaceFirstComma h1
  refine ⟨?_, by decide⟩
  unfold normMoney
  simp [hs, hnone]

/-- Witness for C9 at the concrete input "£1,234.56" (comma and dot in the
cleaned form). -/
theorem normMoney_first_comma_only_witness :
    normMoney (some "£1,234.56") = "" ∧ normMoney (some "12,00") = "12.00" :=
  normMoney_first_comma_only "£1,234.56" (Or.inl ⟨by decide, by decide⟩)

/-! ## Claim C2 -/

/-- C2: direct evaluation of `normalizeDateLoose` on the claim's four dates.
The ISO and textual forms give the claimed "2025-11-09", but slash-separated
numeric dates are intercepted by the leading `new Date(input)` catch-all,
which parses them US month-first: "09/11/2025" yields "2025-09-11" (the
claim says "2025-11-09") and the ambiguous "03/04/2025" yields "2025-03-04"
— exactly the value the claim rules out.  The day-first regex branch
(commented "UK-first" in the source, after a comment calling the direct
parse "quick ISO first") is unreachable for such inputs. -/
theorem normalizeDateLoose_slash_dates_are_month_first :
    normalizeDateLoose (some "2025-11-09") = "2025-11-09" ∧
    normalizeDateLoose (some "09 Nov 2025") = "2025-11-09" ∧
    normalizeDateLoose (some "09/11/2025") = "2025-09-11" ∧
    normalizeDateLoose (some "03/04/2025") = "2025-03-04" :=
  ⟨by decide, by decide, by decide, by decide⟩

/-! ## Claim C7 -/

/-- C7: on the claim's input the first pattern does match "09/11/2025", but
its normalization goes through the same `new Date` month-first catch-all, so
the function returns "2025-09-11", not the claimed "2025-11-09". -/
theorem extractFirstDateFromText_month_first :
    extractFirstDateFromText "INVOICE_DATE: foo\nTOTAL: 09/11/2025 bar" =
      "2025-09-11" := by
  decide

/-! ## Claim C8 -/

/-- C8 (confirmed): in every bill payload the route builds, `dated_on` is
the input date exactly when that date is truthy and matches `YYYY-MM-DD`,
and is the current processing date otherwise, and `due_on` always equals
`dated_on`. -/
theorem billBody_dates (merchant date vat fileName fileType : Option String)
    (total fileB64 contactUrl today : String) :
    ((mkBillBody merchant date vat fileName fileType total fileB64 contactUrl today).dated_on
        = datedOnOf date today) ∧
    ((mkBillBody merchant date vat fileName fileType total fileB64 contactUrl today).due_on
        = (mkBillBody merchant date vat fileName fileType total fileB64 contactUrl today).dated_on) ∧
    (∀ ds, date = some ds → ds ≠ "" → isYmdShape ds = true →
       datedOnOf date today = ds) ∧
    (jsFalsy date = true → datedOnOf date today = today) ∧
    (∀ ds, date = some ds → isYmdShape ds = false → datedOnOf date today = today) := by
  refine ⟨rfl, rfl, ?_, ?_, ?_⟩
  · intro ds hds hne hsh
    subst hds
    simp [datedOnOf, hne, hsh]
  · intro hfal
    cases date with
    | none => rfl
    | some ds =>
        have : ds = "" := by simpa [jsFalsy] using hfal
        simp [datedOnOf, this]
  · intro ds hds hsh
    subst hds
    simp [datedOnOf, hsh]

/-- Witness for C8: a well-formed date is used as-is (with `due_on` equal),
a malformed date falls back to the processing date. -/
theorem billBody_dates_witness :
    (mkBillBody (some "Acme Ltd") (some "2025-11-09") none none none
       "12.50" "QUJD" "/contacts/1" "2026-10-11").dated_on = "2025-11-09" ∧
    (mkBillBody (some "Acme Ltd") (some "2025-11-09") none none none
       "12.50" "QUJD" "/contacts/1" "2026-10-11").due_on = "2025-11-09" ∧
    (mkBillBody (some "Acme Ltd") (some "9/9/25") none none none
       "12.50" "QUJD" "/contacts/1" "2026-10-11").dated_on = "2026-10-11" := by
  have h1 := billBody_dates (some "Acme Ltd") (some "2025-11-09") none none none
    "12.50" "QUJD" "/contacts/1" "2026-10-11"
  have h2 := billBody_dates (some "Acme Ltd") (some "9/9/25") none none none
    "12.50" "QUJD" "/contacts/1" "2026-10-11"
  have e1 : datedOnOf (some "2025-11-09") "2026-10-11" = "2025-11-09" :=
    h1.2.2.1 "2025-11-09" rfl (by decide) (by decide)
  have e2 : datedOnOf (some "9/9/25") "2026-10-11" = "2026-10-11" :=
    h2.2.2.2.2 "9/9/25" rfl (by decide)
  exact ⟨h1.1.trans e1, (h1.2.1.trans h1.1).trans e1, h2.1.trans e2⟩

/-! ## Claim C5 -/

/-- C5 (confirmed): in both upload routes a missing/empty `total` is
answered immediately with 400 `{error:"Missing total"}`, and (with `total`
present) a missing `file_b64` with 400 `{error:"Missing file data"}`; the
run state is returned untouched, so zero fetches and zero token refreshes
happen before validation passes. -/
theorem validation_before_network (b : BillReq) (net : Nat → String → Json → Resp)
    (tokNet : Nat → TokenResp) (today : String) (s : St) :
    (jsFalsy b.total = true →
       billPOST b net tokNet today s = ((400, errBody "Missing total"), s) ∧
       expensePOST b net tokNet today s = ((400, errBody "Missing total"), s)) ∧
    (jsFalsy b.total = false → jsFalsy b.file_b64 = true →
       billPOST b net tokNet today s = ((400, errBody "Missing file data"), s) ∧
       expensePOST b net tokNet today s = ((400, errBody "Missing file data"), s)) := by
  constructor
  · intro ht
    constructor
    · simp [billPOST, ht]
    · simp [expensePOST, ht]
  · intro ht hf
    constructor
    · simp [billPOST, ht, hf]
    · simp [expensePOST, ht, hf]

/-- Witness for C5 at concrete requests (one without `total`, one without
`file_b64`), with an oracle that would answer any network call. -/
theorem validation_before_network_witness :
    billPOST ⟨some "Acme", none, none, none, some "QUJD", none, none⟩
      (fun _ _ _ => ⟨200, "x", Json.null⟩) (fun _ => ⟨200, some "n", none⟩)
      "2026-10-11" ⟨0, 0, "t", "r"⟩ =
      ((400, errBody "Missing total"), ⟨0, 0, "t", "r"⟩) ∧
    expensePOST ⟨some "Acme", none, some "12.50", none, none, none, none⟩
      (fun _ _ _ => ⟨200, "x", Json.null⟩) (fun _ => ⟨200, some "n", none⟩)
      "2026-10-11" ⟨0, 0, "t", "r"⟩ =
      ((400, errBody "Missing file data"), ⟨0, 0, "t", "r"⟩) := by
  have h1 := validation_before_network
    ⟨some "Acme", none, none, none, some "QUJD", none, none⟩
    (fun _ _ _ => ⟨200, "x", Json.null⟩) (fun _ => ⟨200, some "n", none⟩)
    "2026-10-11" ⟨0, 0, "t", "r"⟩
  have h2 := validation_before_network
    ⟨some "Acme", none, some "12.50", none, none, none, none⟩
    (fun _ _ _ => ⟨200, "x", Json.null⟩) (fun _ => ⟨200, some "n", none⟩)
    "2026-10-11" ⟨0, 0, "t", "r"⟩
  exact ⟨(h1.1 (by decide)).1, (h2.2 (by decide) (by decide)).2⟩

/-! ## Claim C6 -/

/-- C6 counterexample: the bill/expense-route `refreshAccessToken` (one of
the two implementations the claim describes) answers statuses 500 and 503
with the same fixed message — so the error does not carry the upstream
status — and on a 200 response whose body lacks `access_token` it does not
fail at all: it returns the absent token as a success (storing nothing). -/
theorem refresh_missing_token_not_failed :
    (refreshAccessTokenBill ⟨500, none, none⟩ ⟨0, 0, "old", "r"⟩).1 =
      Except.error "Failed to refresh FreeAgent access token" ∧
    (refreshAccessTokenBill ⟨503, none, none⟩ ⟨0, 0, "old", "r"⟩).1 =
      Except.error "Failed to refresh FreeAgent access token" ∧
    refreshAccessTokenBill ⟨200, none, none⟩ ⟨0, 0, "old", "r"⟩ =
      (Except.ok none, ⟨0, 1, "old", "r"⟩) :=
  ⟨rfl, rfl, rfl⟩

/-- C6 (amended): the part_003/part_001 `refreshAccessToken` behaves as the
claim says — it fails whenever the endpoint status is non-success OR the
body lacks a truthy access token, with the upstream status in the error
message and no token stored, and never returns an empty token as success.
The bill/expense-route variant fails only on a non-success status, with a
fixed message that does not carry the status; when the response is ok but
the `access_token` is missing it silently returns the absent token as
success, storing nothing. -/
theorem refresh_variants (tr : TokenResp) (s : St) :
    ((tr.okB = false ∨ jsFalsy tr.access_token = true) →
       refreshAccessTokenFA tr s =
         (Except.error ("Failed to refresh FreeAgent token: " ++ toString tr.status),
          { s with refreshes := s.refreshes + 1 })) ∧
    (∀ a, tr.okB = true → tr.access_token = some a → a ≠ "" →
       refreshAccessTokenFA tr s =
         (Except.ok a, { s with refreshes := s.refreshes + 1, access := a })) ∧
    (tr.okB = false →
       refreshAccessTokenBill tr s =
         (Except.error "Failed to refresh FreeAgent access token",
          { s with refreshes := s.refreshes + 1 })) ∧
    (tr.okB = true → tr.access_token = none → tr.refresh_token = none →
       refreshAccessTokenBill tr s =
         (Except.ok none, { s with refreshes := s.refreshes + 1 })) := by
  refine ⟨?_, ?_, ?_, ?_⟩
  · intro h
    unfold refreshAccessTokenFA
    rcases h with h | h
    · cases ha : tr.access_token with
      | none => simp
      | some a => simp [h]
    · cases ha : tr.access_token with
      | none => simp
      | some a =>
          have he : a = "" := by simpa [jsFalsy, ha] using h
          simp [he]
  · intro a hok ha hne
    unfold refreshAccessTokenFA
    simp [ha, hok, hne]
  · intro h
    unfold refreshAccessTokenBill
    simp [h]
  · intro hok ha hr
    unfold refreshAccessTokenBill
    simp [hok, ha, hr]

/-- Witness for the amended C6 at concrete token responses. -/
theorem refresh_variants_witness :
    refreshAccessTokenFA ⟨500, none, none⟩ ⟨0, 0, "t", "r"⟩ =
      (Except.error "Failed to refresh FreeAgent token: 500", ⟨0, 1, "t", "r"⟩) ∧
    refreshAccessTokenFA ⟨200, some "new", some "r2"⟩ ⟨0, 0, "t", "r"⟩ =
      (Except.ok "new", ⟨0, 1, "new", "r"⟩) ∧
    refreshAccessTokenBill ⟨500, none, none⟩ ⟨0, 0, "t", "r"⟩ =
      (Except.error "Failed to refresh FreeAgent access token", ⟨0, 1, "t", "r"⟩) ∧
    refreshAccessTokenBill ⟨200, none, none⟩ ⟨0, 0, "t", "r"⟩ =
      (Except.ok none, ⟨0, 1, "t", "r"⟩) := by
  have h1 := refresh_variants ⟨500, none, none⟩ ⟨0, 0, "t", "r"⟩
  have h2 := refresh_variants ⟨200, some "new", some "r2"⟩ ⟨0, 0, "t", "r"⟩
  have h3 := refresh_variants ⟨200, none, none⟩ ⟨0, 0, "t", "r"⟩
  exact ⟨h1.1 (Or.inl (by decide)), h2.2.1 "new" (by decide) rfl (by decide),
    h1.2.2.1 (by decide), h3.2.2.2 (by decide) rfl rfl⟩

/-! ## Claim C4 -/

lemma refreshAccessTokenBill_ok_parts (tr : TokenResp) (s : St)
    (hok : tr.okB = true) :
    (refreshAccessTokenBill tr s).1 = Except.ok tr.access_token ∧
    (refreshAccessTokenBill tr s).2.k = s.k ∧
    (refreshAccessTokenBill tr s).2.refreshes = s.refreshes + 1 := by
  unfold refreshAccessTokenBill
  rw [if_neg (by simp [hok])]
  refine ⟨rfl, ?_, ?_⟩ <;>
    cases tr.access_token <;> cases tr.refresh_token <;> simp <;> split_ifs <;> rfl

/-- C4 (confirmed): `withToken` sends the request with the current token; if
the response status is anything but 401 it is returned with no refresh and
no second request; on a 401 the refresh runs exactly once, the request is
rebuilt and resent once with the new token, and that second response is
returned regardless of its status — two fetches, one refresh, no further
retry. -/
theorem withToken_single_refresh (net : Nat → String → Json → Resp)
    (tokNet : Nat → TokenResp) (reqBody : Json) (s : St) :
    ((net s.k s.access reqBody).status ≠ 401 →
       withTokenBill net tokNet reqBody s =
         (Except.ok (net s.k s.access reqBody, (net s.k s.access reqBody).text, s.access),
          { s with k := s.k + 1 })) ∧
    ((net s.k s.access reqBody).status = 401 → (tokNet s.refreshes).okB = true →
       (withTokenBill net tokNet reqBody s).1 =
         Except.ok
           (net (s.k + 1) ((tokNet s.refreshes).access_token.getD "") reqBody,
            (net (s.k + 1) ((tokNet s.refreshes).access_token.getD "") reqBody).text,
            (tokNet s.refreshes).access_token.getD "") ∧
       (withTokenBill net tokNet reqBody s).2.k = s.k + 2 ∧
       (withTokenBill net tokNet reqBody s).2.refreshes = s.refreshes + 1) := by
  constructor
  · intro h
    unfold withTokenBill
    simp [h]
  · intro h hok
    obtain ⟨h1, h2, h3⟩ :=
      refreshAccessTokenBill_ok_parts (tokNet s.refreshes) { s with k := s.k + 1 } hok
    unfold withTokenBill
    rw [if_pos h]
    rcases hres : refreshAccessTokenBill (tokNet s.refreshes) { s with k := s.k + 1 }
      with ⟨res, s2⟩
    rw [hres] at h1 h2 h3
    simp only at h1 h2 h3
    subst h1
    simp [h2, h3]

/-- Witness for C4: a mock that answers 401 then 200 — one refresh, two
fetches, final result the 200 response; and a 200-first mock — returned
directly with no refresh. -/
theorem withToken_single_refresh_witness :
    withTokenBill (fun _ _ _ => ⟨200, "okbody", Json.null⟩)
      (fun _ => ⟨200, some "n", none⟩) Json.null ⟨0, 0, "t0", "r0"⟩ =
      (Except.ok (⟨200, "okbody", Json.null⟩, "okbody", "t0"), ⟨1, 0, "t0", "r0"⟩) ∧
    (withTokenBill
        (fun k _ _ => if k = 0 then ⟨401, "no", Json.null⟩ else ⟨200, "yes", Json.null⟩)
        (fun _ => ⟨200, some "n", none⟩) Json.null ⟨0, 0, "t0", "r0"⟩).1 =
      Except.ok (⟨200, "yes", Json.null⟩, "yes", "n") ∧
    (withTokenBill
        (fun k _ _ => if k = 0 then ⟨401, "no", Json.null⟩ else ⟨200, "yes", Json.null⟩)
        (fun _ => ⟨200, some "n", none⟩) Json.null ⟨0, 0, "t0", "r0"⟩).2.k = 2 ∧
    (withTokenBill
        (fun k _ _ => if k = 0 then ⟨401, "no", Json.null⟩ else ⟨200, "yes", Json.null⟩)
        (fun _ => ⟨200, some "n", none⟩) Json.null ⟨0, 0, "t0", "r0"⟩).2.refreshes = 1 := by
  have h1 := withToken_single_refresh (fun _ _ _ => ⟨200, "okbody", Json.null⟩)
    (fun _ => ⟨200, some "n", none⟩) Json.null ⟨0, 0, "t0", "r0"⟩
  have h2 := withToken_single_refresh
    (fun k _ _ => if k = 0 then ⟨401, "no", Json.null⟩ else ⟨200, "yes", Json.null⟩)
    (fun _ => ⟨200, some "n", none⟩) Json.null ⟨0, 0, "t0", "r0"⟩
  have h2c := h2.2 (by decide) (by decide)
  exact ⟨h1.1 (by decide), h2c.1, h2c.2.1, h2c.2.2⟩

/-! ## Claim C10 -/

lemma withTokenBill_refresh_fail (net : Nat → String → Json → Resp)
    (tokNet : Nat → TokenResp) (reqBody : Json) (s : St)
    (h401 : (net s.k s.access reqBody).status = 401)
    (hbad : (tokNet s.refreshes).okB = false) :
    withTokenBill net tokNet reqBody s =
      (Except.error "Failed to refresh FreeAgent access token",
       { s with k := s.k + 1, refreshes := s.refreshes + 1 }) := by
  unfold withTokenBill refreshAccessTokenBill
  simp [h401, hbad]

/-- C10 (confirmed): when the first (contact-lookup) request answers 401 and
the token refresh itself fails, the original 401 response is discarded — the
refresh error propagates out of `withToken` to the handler's catch, which
answers 500 with the refresh failure message; the original request is not
retried (exactly one fetch and one token-endpoint call happen). -/
theorem refresh_failure_maps_to_500 (b : BillReq) (net : Nat → String → Json → Resp)
    (tokNet : Nat → TokenResp) (today : String) (s : St)
    (ht : jsFalsy b.total = false) (hf : jsFalsy b.file_b64 = false)
    (h401 : (net s.k s.access Json.null).status = 401)
    (hbad : (tokNet s.refreshes).okB = false) :
    billPOST b net tokNet today s =
      ((500, errBody "Failed to refresh FreeAgent access token"),
       { s with k := s.k + 1, refreshes := s.refreshes + 1 }) := by
  unfold billPOST
  rw [withTokenBill_refresh_fail net tokNet Json.null s h401 hbad]
  simp [ht, hf]

/-- Witness for C10: a request whose first fetch answers 401 while the token
endpoint answers 500 produces the 500 refresh-failure response after exactly
one fetch and one refresh attempt. -/
theorem refresh_failure_maps_to_500_witness :
    billPOST ⟨some "Acme", none, some "12.50", none, some "QUJD", none, none⟩
      (fun _ _ _ => ⟨401, "x", Json.null⟩) (fun _ => ⟨500, none, none⟩)
      "2026-10-11" ⟨0, 0, "t", "r"⟩ =
      ((500, errBody "Failed to refresh FreeAgent access token"),
       ⟨1, 1, "t", "r"⟩) :=
  refresh_failure_maps_to_500
    ⟨some "Acme", none, some "12.50", none, some "QUJD", none, none⟩
    (fun _ _ _ => ⟨401, "x", Json.null⟩) (fun _ => ⟨500, none, none⟩)
    "2026-10-11" ⟨0, 0, "t", "r"⟩ (by decide) (by decide) (by decide) (by decide)

/-! ## Claim C3 -/

/-- C3 counterexample: the upload route's strategy loop has only the four
multipart combinations.  Against a network where the first four calls fail
(status 500) and a fifth call would succeed (status 201), the loop answers
the 500 "Upload failed" error with the last failure's detail after exactly
four fetches — it never issues the fifth request, so there is no JSON-entity,
PUT, or inline fallback behind it, contrary to the claimed five-strategy
chain ending in success. -/
theorem uploadLoop_counterexample :
    uploadPOST (some "QUJD") "B"
      (fun k _ => if k < 4 then ⟨500, "no", Json.null⟩ else ⟨201, "yes", Json.null⟩)
      (fun _ => ⟨200, some "n", none⟩) ⟨0, 0, "t", "r"⟩ =
      ((500, errBodyD "Upload failed" "Tried B/attachments.json → 500: no"),
       ⟨4, 0, "t", "r"⟩) ∧
    ((fun k (_ : String) =>
        if k < 4 then (⟨500, "no", Json.null⟩ : Resp) else ⟨201, "yes", Json.null⟩)
      4 "t").okB = true :=
  ⟨rfl, rfl⟩

/-- C3 (amended): the multipart upload route tries exactly four strategies
in fixed order — the `/attachments` endpoint and then `/attachments.json`,
each first with form field `file` and then with `attachment[file]` — stops
at the first HTTP success and returns that response without attempting any
further combination, and if all four fail it answers 500 with the last
failure's "Tried URL → STATUS: BODY" detail truncated to 2000 characters.
The JSON-entity, PUT-update, and inline-payload strategies live in separate
route handlers and are not fallbacks of this loop. -/
theorem uploadLoop_spec (base : String) (net : Nat → String → Resp)
    (tokNet : Nat → TokenResp) (fileB64 : Option String) (s : St)
    (hv : jsFalsy fileB64 = false) (htok : s.access ≠ "") (hk : s.k = 0)
    (h401 : ∀ i, i < 4 → (net i s.access).status ≠ 401) :
    ((∀ i, i < 4 → (net i s.access).okB = false) →
       uploadPOST fileB64 base net tokNet s =
         ((500, errBodyD "Upload failed"
             (String.mk ((uploadDetail (base ++ "/attachments.json")
               (net 3 s.access)).data.take 2000))),
          { s with k := 4 })) ∧
    (∀ i, i < 4 → (∀ j, j < i → (net j s.access).okB = false) →
       (net i s.access).okB = true →
       uploadPOST fileB64 base net tokNet s =
         ((200, Json.jobj [("success", Json.jbool true),
            ("attachment",
              match (net i s.access).jparse.get? "attachment" with
              | some Json.null => (net i s.access).jparse
              | some j => j
              | none => (net i s.access).jparse)]),
          { s with k := i + 1 })) := by
  obtain ⟨k, rf, ac, rt⟩ := s
  simp only at hk htok h401
  subst hk
  constructor
  · intro hfail
    simp only at hfail
    have n0 := h401 0 (by omega)
    have n1 := h401 1 (by omega)
    have n2 := h401 2 (by omega)
    have n3 := h401 3 (by omega)
    have f0 := hfail 0 (by omega)
    have f1 := hfail 1 (by omega)
    have f2 := hfail 2 (by omega)
    have f3 := hfail 3 (by omega)
    simp [uploadPOST, hv, htok, uploadCombos, uploadTry, uploadAttempt,
      n0, n1, n2, n3, f0, f1, f2, f3]
  · intro i hi hprev hok
    simp only at hprev hok
    interval_cases i
    · have n0 := h401 0 (by omega)
      simp [uploadPOST, hv, htok, uploadCombos, uploadTry, uploadAttempt, n0, hok]
    · have n0 := h401 0 (by omega)
      have n1 := h401 1 (by omega)
      have f0 := hprev 0 (by omega)
      simp [uploadPOST, hv, htok, uploadCombos, uploadTry, uploadAttempt,
        n0, n1, f0, hok]
    · have n0 := h401 0 (by omega)
      have n1 := h401 1 (by omega)
      have n2 := h401 2 (by omega)
      have f0 := hprev 0 (by omega)
      have f1 := hprev 1 (by omega)
      simp [uploadPOST, hv, htok, uploadCombos, uploadTry, uploadAttempt,
        n0, n1, n2, f0, f1, hok]
    · have n0 := h401 0 (by omega)
      have n1 := h401 1 (by omega)
      have n2 := h401 2 (by omega)
      have n3 := h401 3 (by omega)
      have f0 := hprev 0 (by omega)
      have f1 := hprev 1 (by omega)
      have f2 := hprev 2 (by omega)
      simp [uploadPOST, hv, htok, uploadCombos, uploadTry, uploadAttempt,
        n0, n1, n2, n3, f0, f1, f2, hok]

/-- Witness for the amended C3: an all-fail network stops with the truncated
last detail after four fetches, and a network succeeding on the third
attempt returns that success after three fetches, never issuing a fourth. -/
theorem uploadLoop_spec_witness :
    uploadPOST (some "QUJD") "B" (fun _ _ => ⟨500, "no", Json.null⟩)
      (fun _ => ⟨200, some "n", none⟩) ⟨0, 0, "t", "r"⟩ =
      ((500, errBodyD "Upload failed" "Tried B/attachments.json → 500: no"),
       ⟨4, 0, "t", "r"⟩) ∧
    uploadPOST (some "QUJD") "B"
      (fun k _ => if k = 2 then ⟨201, "made", Json.null⟩ else ⟨500, "no", Json.null⟩)
      (fun _ => ⟨200, some "n", none⟩) ⟨0, 0, "t", "r"⟩ =
      ((200, Json.jobj [("success", Json.jbool true), ("attachment", Json.null)]),
       ⟨3, 0, "t", "r"⟩) := by
  have h1 := uploadLoop_spec "B" (fun _ _ => ⟨500, "no", Json.null⟩)
    (fun _ => ⟨200, some "n", none⟩) (some "QUJD") ⟨0, 0, "t", "r"⟩
    (by decide) (by decide) rfl (by intro i hi; simp)
  have h2 := uploadLoop_spec "B"
    (fun k _ => if k = 2 then ⟨201, "made", Json.null⟩ else ⟨500, "no", Json.null⟩)
    (fun _ => ⟨200, some "n", none⟩) (some "QUJD") ⟨0, 0, "t", "r"⟩
    (by decide) (by decide) rfl
    (by intro i hi; interval_cases i <;> decide)
  refine ⟨h1.1 (by intro i hi; simp [Resp.okB]), ?_⟩
  have := h2.2 2 (by omega) (by intro j hj; interval_cases j <;> decide) (by decide)
  exact this
